import Mathlib

set_option maxHeartbeats 1000000

namespace Usbloop

/-! Shallow embedding of the usbloop repository: the format-string matcher
and descriptor constructors, the MemScope PCM sample decoder, the
hysteresis threshold derivation, the loop state machine of alsaloop.py,
the task/timer dispatch protocol, the stream error handler, and the
with-statement exception suppression of usbloop.py. -/

/-- A Python value produced by struct.unpack: an int, or a bytes object
(struct code c yields one-byte bytes objects, not integers). -/
inductive PyVal
  | int (i : Int)
  | bytes (b : List Nat)
deriving DecidableEq

/-- True exactly on the int constructor. -/
def PyVal.isInt : PyVal → Bool
  | .int _ => true
  | .bytes _ => false

/-- Python exceptions that the embedded constructor fragments can raise. -/
inductive PyError
  | unboundLocal (name : String)
  | attributeError (name : String)
  | valueError (msg : String)
deriving DecidableEq

/-- Digit test for the regex fragment of one character. -/
def isDigitCh (c : Char) : Bool := '0' ≤ c && c ≤ '9'

/-- Split a character list into its maximal leading digit run and the
rest: the greedy match of the second capture group of the pattern. -/
def splitDigits : List Char → List Char × List Char
  | [] => ([], [])
  | c :: cs =>
    if isDigitCh c then
      let p := splitDigits cs
      (c :: p.1, p.2)
    else ([], c :: cs)

/-- After the digit group the pattern allows an optional underscore and an
optional LE or BE before the anchored end, so exactly these six suffixes
are accepted; the value is the captured endianness group (None when the
group is absent, as in Python). -/
def endianGroup : List Char → Option (Option String)
  | [] => some none
  | ['_'] => some none
  | ['L', 'E'] => some (some "LE")
  | ['B', 'E'] => some (some "BE")
  | ['_', 'L', 'E'] => some (some "LE")
  | ['_', 'B', 'E'] => some (some "BE")
  | _ => none

/-- Match the pattern tail after a sign letter: a nonempty digit run, then
an accepted suffix.  Backtracking the greedy digit run cannot make a
failing match succeed, because every accepted suffix starts with a
non-digit character, so only the maximal run is tried. -/
def tailGroups (cs : List Char) : Option (String × Option String) :=
  let p := splitDigits cs
  match p.1, endianGroup p.2 with
  | [], _ => none
  | ds, some e => some (String.mk ds, e)
  | _, none => none

/-- The whole regex of alsaloop.py line 34 and usbloop.py line 40: a
greedy leading wildcard, a sign letter S or U, digits, an optional
underscore and an optional LE or BE, anchored at the end.  The greedy
wildcard means the sign letter is taken at the rightmost position from
which the pattern tail reaches the end of the string.  The result mirrors
res.groups(): (sign, digits, endianness). -/
def fmtRun : List Char → Option (Char × String × Option String)
  | [] => none
  | c :: cs =>
    match fmtRun cs with
    | some r => some r
    | none =>
      if c = 'S' ∨ c = 'U' then
        match tailGroups cs with
        | some p => some (c, p.1, p.2)
        | none => none
      else none

/-- re.match of the format pattern against a format identifier string. -/
def fmtMatch (s : String) : Option (Char × String × Option String) :=
  fmtRun s.data

/-- Shared fields of AlsaDeviceConfig (alsaloop.py lines 19-62) and
StreamMeta (usbloop.py lines 21-52).  pcm_name and the floating point
period_time are omitted: neither is read by the decoder, the thresholds
or the state machine.  maxamp is 2 to the power bits - 1 and reference is
0 for signed formats and maxamp for unsigned ones. -/
structure StreamMeta where
  format : String
  size : Nat
  signed : Bool
  endian : Option String
  channels : Nat
  rate : Nat
  frame_size : Nat
  period_size : Nat
  maxamp : Nat
  reference : Nat
deriving DecidableEq

/-- Value of a digit string, as int() computes it on the digits group. -/
def digitsToNat : List Char → Nat → Nat
  | [], acc => acc
  | c :: cs, acc => digitsToNat cs (acc * 10 + (c.toNat - '0'.toNat))

/-- int() on the captured digit string. -/
def strToNat (s : String) : Nat := digitsToNat s.data 0

/-- The field computation shared verbatim by both constructors (alsaloop.py
lines 45-62, usbloop.py lines 41-52) once the regex has matched.  In
Python a zero bits value would make the shift count of maxamp negative
and raise ValueError; that path is modelled as an error as well. -/
def mkStreamMeta (pcm_data_format : String) (sign : Char) (bits : String)
    (endian : Option String) (channels rate period_frames : Nat) :
    Except PyError StreamMeta :=
  let bitsN := strToNat bits
  if bitsN = 0 then .error (PyError.valueError "negative shift count")
  else
    let size := bitsN / 8
    let signed := sign == 'S'
    let maxamp := 2 ^ (bitsN - 1)
    .ok { format := pcm_data_format, size := size, signed := signed, endian := endian,
          channels := channels, rate := rate, frame_size := channels * size,
          period_size := period_frames, maxamp := maxamp,
          reference := if signed then 0 else maxamp }

/-- AlsaDeviceConfig.__init__ (alsaloop.py lines 36-62).  On a match the
descriptor is built; on match failure the code emits a warning and assigns
default size, signed and endian fields (lines 50-52), but line 61 then
evaluates int(bits) although the local variable bits was only bound inside
the matched branch, so the constructor raises UnboundLocalError instead of
returning the default descriptor. -/
def AlsaDeviceConfig.init (pcm_data_format : String)
    (channels rate period_frames : Nat) : Except PyError StreamMeta :=
  match fmtMatch pcm_data_format with
  | some g => mkStreamMeta pcm_data_format g.1 g.2.1 g.2.2 channels rate period_frames
  | none => .error (PyError.unboundLocal "bits")

/-- StreamMeta.__init__ (usbloop.py lines 34-52): the same field
computation but with no fallback branch at all, so a non-matching format
string reaches res.groups() with res equal to None and raises
AttributeError. -/
def StreamMeta.init (pcm_data_format : String)
    (channels rate period_frames : Nat) : Except PyError StreamMeta :=
  match fmtMatch pcm_data_format with
  | some g => mkStreamMeta pcm_data_format g.1 g.2.1 g.2.2 channels rate period_frames
  | none => .error (PyError.attributeError "groups")

/-- struct_t format-code table (alsaloop.py lines 145-155, usbloop.py
lines 130-140).  Note that the pair of unsigned and size one maps to the
struct code c, which unpacks to a one-byte bytes object, not an integer. -/
def struct_t (signed : Bool) (size : Nat) : Option Char :=
  match signed, size with
  | true, 1 => some 'b'
  | false, 1 => some 'c'
  | true, 2 => some 'h'
  | false, 2 => some 'H'
  | true, 3 => some 'i'
  | false, 3 => some 'I'
  | true, 4 => some 'i'
  | false, 4 => some 'I'
  | _, _ => none

/-- struct.calcsize of a single format code. -/
def fmtSize : Char → Nat
  | 'b' => 1
  | 'c' => 1
  | 'h' => 2
  | 'H' => 2
  | _ => 4

/-- Value of a byte list read little-endian. -/
def leValue : List Nat → Nat
  | [] => 0
  | b :: bs => b + 256 * leValue bs

/-- Byte order selected by the endian_t prefix: BE reverses, LE and the
absent prefix use native order, little-endian on the targeted hardware. -/
def fieldValue (endian : Option String) (bs : List Nat) : Nat :=
  if endian = some "BE" then leValue bs.reverse else leValue bs

/-- Two's-complement reinterpretation of an unsigned width-byte value. -/
def toSigned (width : Nat) (u : Nat) : Int :=
  if u < 2 ^ (8 * width - 1) then (u : Int) else (u : Int) - 2 ^ (8 * width)

/-- struct.unpack of a single item of the given format code. -/
def unpackItem (endian : Option String) : Char → List Nat → PyVal
  | 'b', bs => .int (toSigned 1 (fieldValue endian bs))
  | 'c', bs => .bytes bs
  | 'h', bs => .int (toSigned 2 (fieldValue endian bs))
  | 'H', bs => .int (fieldValue endian bs)
  | 'i', bs => .int (toSigned 4 (fieldValue endian bs))
  | 'I', bs => .int (fieldValue endian bs)
  | _, bs => .bytes bs

/-- Unpack the given number of consecutive items from a chunk. -/
def unpackItems (endian : Option String) (code : Char) : Nat → List Nat → List PyVal
  | 0, _ => []
  | n + 1, l => unpackItem endian code (l.take (fmtSize code)) ::
      unpackItems endian code n (l.drop (fmtSize code))

/-- struct.Struct(...).unpack on the assembled chunk: struct.error (here
none) unless the chunk length equals channels times the item size. -/
def structUnpack (endian : Option String) (code : Char) (channels : Nat)
    (chunk : List Nat) : Option (List PyVal) :=
  if chunk.length = channels * fmtSize code then
    some (unpackItems endian code channels chunk)
  else none

/-- padding_t (alsaloop.py lines 156-162, usbloop.py lines 141-147): a
dict keyed by (signed, size, endian) whose lookup defaults to the
identity.  The two signed entries test byte x[2], raising IndexError
(modelled as none) when the field holds fewer than three bytes.  The
source's unsigned BE entry prepends byte 255, and its signed BE entry
tests x[2], which in big-endian order is the least significant byte. -/
def padding (signed : Bool) (size : Nat) (endian : Option String) (x : List Nat) :
    Option (List Nat) :=
  if signed = true ∧ size = 3 ∧ endian = some "LE" then
    if h : 2 < x.length then
      some (x ++ [if x.get ⟨2, h⟩ < 128 then 0 else 255])
    else none
  else if signed = false ∧ size = 3 ∧ endian = some "LE" then
    some (x ++ [0])
  else if signed = true ∧ size = 3 ∧ endian = some "BE" then
    if h : 2 < x.length then
      some ((if x.get ⟨2, h⟩ < 128 then 0 else 255) :: x)
    else none
  else if signed = false ∧ size = 3 ∧ endian = some "BE" then
    some (255 :: x)
  else some x

/-- The channel loop of MemScope.__next__ (alsaloop.py lines 178-185):
chunk grows by padding(buffer.read(size)) once per channel; the result is
the assembled chunk and the remaining buffer, or none when a padding
lambda raises IndexError.  buffer.read returns at most size bytes and
fewer at the end of the buffer, which take and drop model exactly. -/
def buildChunk (signed : Bool) (size : Nat) (endian : Option String) :
    Nat → List Nat → Option (List Nat × List Nat)
  | 0, rest => some ([], rest)
  | c + 1, rest =>
    match padding signed size endian (rest.take size) with
    | none => none
    | some f =>
      match buildChunk signed size endian c (rest.drop size) with
      | none => none
      | some p => some (f ++ p.1, p.2)

/-- MemScope.__next__ : assemble the chunk, then struct.unpack it;
struct.error and IndexError both end the iteration silently (none). -/
def MemScope.next (cfg : StreamMeta) (buf : List Nat) :
    Option (List PyVal × List Nat) :=
  match struct_t cfg.signed cfg.size with
  | none => none
  | some code =>
    match buildChunk cfg.signed cfg.size cfg.endian cfg.channels buf with
    | none => none
    | some p =>
      match structUnpack cfg.endian code cfg.channels p.1 with
      | none => none
      | some frame => some (frame, p.2)

/-- Fuel-indexed iteration of MemScope. -/
def decodeAux (cfg : StreamMeta) : Nat → List Nat → List (List PyVal)
  | 0, _ => []
  | fuel + 1, buf =>
    match MemScope.next cfg buf with
    | none => []
    | some p => p.1 :: decodeAux cfg fuel p.2

/-- The full lazy frame sequence of a MemScope over a capture buffer,
materialised.  For the configurations the program builds every produced
frame consumes at least one byte, so length-plus-one fuel never runs
out. -/
def MemScope.decode (cfg : StreamMeta) (data : List Nat) : List (List PyVal) :=
  decodeAux cfg (data.length + 1) data

/-- Unpacked item width of each sample size (struct codes b, c, h, H have
their own size; the three-byte formats use the four-byte codes i, I). -/
def itemSize (size : Nat) : Nat := if size = 3 then 4 else size

/-- A 16-bit signed little-endian stereo descriptor, the built-in default
of both constructors. -/
def cfgS16 : StreamMeta :=
  { format := "PCM_FORMAT_S16_LE", size := 2, signed := true, endian := some "LE",
    channels := 2, rate := 48000, frame_size := 4, period_size := 1024,
    maxamp := 32768, reference := 0 }

/-- Unsigned 8-bit mono descriptor, as built from PCM_FORMAT_U8. -/
def cfgU8 : StreamMeta :=
  { format := "PCM_FORMAT_U8", size := 1, signed := false, endian := none,
    channels := 1, rate := 48000, frame_size := 1, period_size := 1024,
    maxamp := 128, reference := 128 }

/-- Signed 8-bit mono descriptor, for contrast with cfgU8. -/
def cfgS8 : StreamMeta :=
  { format := "PCM_FORMAT_S8", size := 1, signed := true, endian := none,
    channels := 1, rate := 48000, frame_size := 1, period_size := 1024,
    maxamp := 128, reference := 0 }

/-- LoopStateMachine.__reverse_db (alsaloop.py lines 224-225): the raw
amplitude at the given attenuation in dB relative to full scale. -/
noncomputable def reverse_db (maxamp db : ℝ) : ℝ := maxamp * (10 : ℝ) ^ (db / 20)

/-- The hysteresis comparator bounds, in the order the HystComp constructor
receives them (alsaloop.py lines 195-199). -/
structure HystComp where
  low : ℝ
  high : ℝ

/-- The probe setter (alsaloop.py lines 239-247): sensitivity 0 disables
detection with both bounds 0; otherwise the sensitivity is forced
negative and HystComp receives reverse_db(val) as low and
reverse_db(val - 3) as high. -/
noncomputable def probe_set (maxamp sens : ℝ) : HystComp :=
  if sens = 0 then ⟨0, 0⟩
  else ⟨reverse_db maxamp (-|sens|), reverse_db maxamp (-|sens| - 3)⟩

/-- FSM.__reverse_db (usbloop.py lines 206-207): the absolute value is
taken inside this variant. -/
noncomputable def usb_reverse_db (maxamp db : ℝ) : ℝ :=
  maxamp * (10 : ℝ) ^ (-|db| / 20)

/-- The Thresholds pair built in FSM.__init__ (usbloop.py lines 201-204):
start is reverse_db(threshold_db) and stop is
reverse_db(threshold_db - 3). -/
noncomputable def usb_thresholds (maxamp db : ℝ) : ℝ × ℝ :=
  (usb_reverse_db maxamp db, usb_reverse_db maxamp (db - 3))

/-- Modelled from the spec: the PlayerState enumeration is declared in
config.py, which is not part of the two source files; its members
UNKNOWN, HYBERNATE, IDLE, PLAY and KILLED are fixed by their uses in
alsaloop.py and by the spec's data model (the spec spells the second
state HIBERNATE). -/
inductive PlayerState
  | UNKNOWN
  | HYBERNATE
  | IDLE
  | PLAY
  | KILLED
deriving DecidableEq

/-- Modelled from the spec: the PlayerCommand enumeration is declared in
config.py; its members PLAY and STOP are fixed by their uses in
alsaloop.py and by the spec's data model. -/
inductive PlayerCommand
  | PLAY
  | STOP
deriving DecidableEq

/-- Modelled from the spec: the detection counts of ProbeConfig, declared
in config.py.  The interval durations are omitted: the embedding orders
events explicitly instead of timing them. -/
structure ProbeCfg where
  start_count : Nat
  stop_count : Nat
deriving DecidableEq

/-- The observable control state of LoopStateMachine: the player state and
the local consecutive-detection counters of the currently scheduled _idle
and _monitor tasks. -/
structure LoopSM where
  state : PlayerState
  idleCounter : Nat
  monCounter : Nat
  probe_cfg : ProbeCfg
deriving DecidableEq

/-- One scheduler event the machine can process.  Probe classifications
enter as booleans because they are computed from captured audio, which is
external input. -/
inductive LoopEvent
  | cmd (c : PlayerCommand)
  | wakeTimer
  | idleCycle (above_high : Bool)
  | monitorCycle (below_low : Bool)
  | shutdown
deriving DecidableEq

/-- The manifests table of run (alsaloop.py lines 290-311): PLAY sets the
state to IDLE and schedules a fresh _idle task (local counter 0); STOP
sets the state to HYBERNATE and schedules _wake after the hibernate
interval. -/
def dispatchCmd (m : LoopSM) : PlayerCommand → LoopSM
  | .PLAY => { m with state := .IDLE, idleCounter := 0 }
  | .STOP => { m with state := .HYBERNATE }

/-- One iteration of the _idle loop (alsaloop.py lines 318-335), taken
only while the state is IDLE: an above-high classification increments the
local counter, anything else resets it; reaching start_count switches the
state to PLAY and schedules _stream and then a fresh _monitor task. -/
def idleStep (m : LoopSM) (above_high : Bool) : LoopSM :=
  if m.state = PlayerState.IDLE then
    let c := if above_high then m.idleCounter + 1 else 0
    if m.probe_cfg.start_count ≤ c then
      { m with state := .PLAY, idleCounter := c, monCounter := 0 }
    else { m with idleCounter := c }
  else m

/-- One iteration of the _monitor loop (alsaloop.py lines 337-352), taken
only while the state is PLAY: a below-low classification increments the
local counter, anything else resets it; reaching stop_count switches the
state back to IDLE and schedules a fresh _idle task. -/
def monitorStep (m : LoopSM) (below_low : Bool) : LoopSM :=
  if m.state = PlayerState.PLAY then
    let c := if below_low then m.monCounter + 1 else 0
    if m.probe_cfg.stop_count ≤ c then
      { m with state := .IDLE, monCounter := c, idleCounter := 0 }
    else { m with monCounter := c }
  else m

/-- One step of the whole controller.  Once the state is KILLED nothing
runs any more: _shutdown (alsaloop.py lines 387-392) cancels every task
and stops the event loop, and the dispatch loop of run exits because its
condition requires a non-KILLED state; this is the terminal behaviour the
guard encodes.  _wake (lines 314-316) sets the state to IDLE and starts a
fresh _idle task. -/
def step (m : LoopSM) : LoopEvent → LoopSM := fun e =>
  if m.state = PlayerState.KILLED then m
  else
    match e with
    | .cmd c => dispatchCmd m c
    | .wakeTimer => { m with state := .IDLE, idleCounter := 0 }
    | .idleCycle hi => idleStep m hi
    | .monitorCycle lo => monitorStep m lo
    | .shutdown => { m with state := .KILLED }

/-- The initial machine (alsaloop.py lines 221-222) with the probe counts
of the claim's scenario: start_count 3 and stop_count 5. -/
def initSM : LoopSM :=
  { state := .UNKNOWN, idleCounter := 0, monCounter := 0,
    probe_cfg := { start_count := 3, stop_count := 5 } }

/-- Run the controller over a list of events. -/
def runEvents (es : List LoopEvent) : LoopSM := es.foldl step initSM

/-- The event prefix that reaches PLAY: the first PLAY command, then three
consecutive above-high idle probes. -/
def c2ToPlay : List LoopEvent :=
  [.cmd .PLAY, .idleCycle true, .idleCycle true, .idleCycle true]

/-- A task created with asyncio.create_task, tagged with the index of the
top-level command dispatch that caused it (the generation of the spec's
glossary). -/
structure SchedTask where
  gen : Nat
deriving DecidableEq

/-- A pending loop.call_later callback: at its due time it calls
asyncio.create_task on the handler of its generation (alsaloop.py line
311).  The TimerHandle returned by call_later is never stored or
cancelled anywhere in the source. -/
structure TimerCB where
  gen : Nat
  due : Nat
deriving DecidableEq

/-- The task bookkeeping of the running event loop: the clock, the number
of top-level dispatches so far, the live created tasks and the pending
call_later callbacks. -/
structure RunLoop where
  now : Nat
  gen : Nat
  running : List SchedTask
  timers : List TimerCB
deriving DecidableEq

/-- _gather (alsaloop.py lines 371-378): cancel every created task other
than the dispatcher itself and await the cancellations.  Pending
call_later callbacks are not tasks and their handles were never kept, so
they survive untouched. -/
def gather (s : RunLoop) : RunLoop := { s with running := [] }

/-- One pass of the dispatch loop of run (alsaloop.py lines 304-312) for
one dequeued command: await _gather, then set the new state and schedule
the new state's handler with loop.call_later after the manifest delay. -/
def dispatch (s : RunLoop) (delay : Nat) : RunLoop :=
  let s1 := gather s
  { s1 with gen := s1.gen + 1,
            timers := s1.timers ++ [{ gen := s1.gen + 1, due := s1.now + delay }] }

/-- Advance the clock: every call_later callback that has come due fires,
and each one creates the task of its own generation. -/
def elapse (s : RunLoop) (t : Nat) : RunLoop :=
  { s with now := t,
           running := s.running ++
             ((s.timers.filter (fun tm => decide (tm.due ≤ t))).map
               (fun tm => { gen := tm.gen })),
           timers := s.timers.filter (fun tm => decide (t < tm.due)) }

/-- The loop state after a STOP dispatch whose hibernate wake-up is due
five ticks later. -/
def c3AfterStop : RunLoop :=
  dispatch { now := 0, gen := 0, running := [], timers := [] } 5

/-- The loop state after a PLAY command dispatched immediately afterwards,
before the hibernate timer has fired. -/
def c3AfterPlay : RunLoop := dispatch c3AfterStop 0

/-- The loop state once the clock reaches the hibernate timer's due time:
both pending callbacks fire and create their tasks. -/
def c3Fired : RunLoop := elapse c3AfterPlay 5

/-- An ALSA library error (alsaaudio.ALSAAudioError). -/
structure ALSAAudioError where
  msg : String
deriving DecidableEq

/-- The outcome of the body of _stream's try block (alsaloop.py lines
357-364): opening the playback device inside the with statement, the
initial write, and the capture/write loop.  The body raises the first
device error that occurs, if any: an open failure or a hardware fault
surfacing from a read or write. -/
def runStreamBody (openResult : Option ALSAAudioError)
    (writeResults : List (Option ALSAAudioError)) : Except ALSAAudioError Unit :=
  match openResult with
  | some e => .error e
  | none =>
    match writeResults.findSome? id with
    | some e => .error e
    | none => .ok ()

/-- LoopStateMachine._stream (alsaloop.py lines 354-369): the whole body
sits inside try/except alsaaudio.ALSAAudioError; on such an error the
handler logs and puts PlayerCommand.STOP on the command queue.  The
result pairs the final command queue with the exception escaping the
handler, if any. -/
def stream_handler (openResult : Option ALSAAudioError)
    (writeResults : List (Option ALSAAudioError)) (rxq : List PlayerCommand) :
    List PlayerCommand × Option ALSAAudioError :=
  match runStreamBody openResult writeResults with
  | .ok _ => (rxq, none)
  | .error _ => (rxq ++ [PlayerCommand.STOP], none)

/-- AlsaDevice.__exit__ in usbloop.py lines 75-77 closes the device and
then returns True unconditionally. -/
def exitReturnsTrue : Bool := true

/-- An exception raised inside a with-device block of usbloop.py. -/
inductive PyExc
  | typeError (msg : String)
  | alsaError (msg : String)
deriving DecidableEq

/-- Python with-statement semantics around an AlsaDevice of usbloop.py
(CaptureDevice or PlaybackDevice, which inherit __exit__): when the body
raises, __exit__ runs and its truthy return value suppresses the
exception, so the with statement completes normally. -/
def withAlsaDevice (body : Except PyExc Unit) : Except PyExc Unit :=
  match body with
  | .ok _ => .ok ()
  | .error e => if exitReturnsTrue then .ok () else .error e

/-- FSM.stream (usbloop.py lines 252-263): the with block has no try or
except around it and the class has no command queue, so the handler's
result is the with statement's outcome paired with the list of commands
it issues, which is always empty. -/
def usb_stream (body : Except PyExc Unit) : Except PyExc Unit × List PlayerCommand :=
  (withAlsaDevice body, [])

/-- Powers of ten are strictly monotone in the exponent. -/
theorem rpow_ten_lt {a b : ℝ} (h : a < b) : (10 : ℝ) ^ a < (10 : ℝ) ^ b :=
  (Real.rpow_lt_rpow_left_iff (by norm_num)).mpr h

/-- reverse_db is strictly monotone in the dB argument for a positive
full-scale amplitude. -/
theorem reverse_db_lt (maxamp a b : ℝ) (hm : 0 < maxamp) (h : a < b) :
    reverse_db maxamp a < reverse_db maxamp b := by
  unfold reverse_db
  exact mul_lt_mul_of_pos_left (rpow_ten_lt (by linarith)) hm

/-- The quotient of two reverse_db values at the same amplitude depends
only on the dB difference. -/
theorem reverse_db_div (maxamp a b : ℝ) (hm : maxamp ≠ 0) :
    reverse_db maxamp a / reverse_db maxamp b
      = (10 : ℝ) ^ (a / 20 - b / 20) := by
  unfold reverse_db
  rw [Real.rpow_sub (by norm_num : (0 : ℝ) < 10) (a / 20) (b / 20),
    mul_div_mul_left _ _ hm]

/-- The usbloop variant of reverse_db agrees with the alsaloop one at the
negated absolute dB value. -/
theorem usb_reverse_db_eq (maxamp db : ℝ) :
    usb_reverse_db maxamp db = reverse_db maxamp (-|db|) := rfl

/-- The low field of the derived comparator for a nonzero sensitivity. -/
theorem probe_set_low (maxamp s : ℝ) (hs : s ≠ 0) :
    (probe_set maxamp s).low = reverse_db maxamp (-|s|) := by
  simp [probe_set, hs]

/-- The high field of the derived comparator for a nonzero sensitivity. -/
theorem probe_set_high (maxamp s : ℝ) (hs : s ≠ 0) :
    (probe_set maxamp s).high = reverse_db maxamp (-|s| - 3) := by
  simp [probe_set, hs]

/-- Claim C1, counterexample: for the 16-bit signed full scale 32768 and
sensitivity -10 dB, the derived pair does not satisfy high > low — the
probe setter passes reverse_db(-10) as low and reverse_db(-13) as high,
and the latter is strictly smaller. -/
theorem C1_counterexample :
    ¬ ((probe_set 32768 (-10)).high > (probe_set 32768 (-10)).low) := by
  have hs : ((-10 : ℝ)) ≠ 0 := by norm_num
  have habs : |(-10 : ℝ)| = 10 := by
    rw [abs_neg]
    exact abs_of_nonneg (by norm_num)
  rw [gt_iff_lt, not_lt, probe_set_low _ _ hs, probe_set_high _ _ hs, habs]
  exact le_of_lt (reverse_db_lt 32768 _ _ (by norm_num) (by norm_num))

/-- Claim C1 as amended: for any positive full scale and nonzero
sensitivity the derived pair satisfies low > high, with the fixed 3 dB
amplitude quotient low / high equal to 10 to the power 3 / 20 (about
1.413), independent of the sensitivity magnitude; for the 16-bit signed
full scale 32768 and sensitivity -10 dB, low is 32768 times 10 to the
power -10/20 (about 10362) and high is 32768 times 10 to the power
-13/20 (about 7336).  The usbloop variant has the same relationship with
the larger value as the start threshold and the smaller as the stop
threshold. -/
theorem C1_thresholds (maxamp s : ℝ) (hm : 0 < maxamp) (hs : s ≠ 0) :
    (probe_set maxamp s).high < (probe_set maxamp s).low
    ∧ (probe_set maxamp s).low / (probe_set maxamp s).high
        = (10 : ℝ) ^ ((3 : ℝ) / 20)
    ∧ (probe_set 32768 (-10)).low = 32768 * (10 : ℝ) ^ ((-10 : ℝ) / 20)
    ∧ (probe_set 32768 (-10)).high = 32768 * (10 : ℝ) ^ ((-13 : ℝ) / 20)
    ∧ (usb_thresholds 32768 (-10)).2 < (usb_thresholds 32768 (-10)).1
    ∧ (usb_thresholds 32768 (-10)).1 / (usb_thresholds 32768 (-10)).2
        = (10 : ℝ) ^ ((3 : ℝ) / 20) := by
  have hten : ((-10 : ℝ)) ≠ 0 := by norm_num
  have habs : |(-10 : ℝ)| = 10 := by
    rw [abs_neg]
    exact abs_of_nonneg (by norm_num)
  have habs13 : |(-10 : ℝ) - 3| = 13 := by
    have h1 : ((-10 : ℝ) - 3) = -13 := by norm_num
    rw [h1, abs_neg]
    exact abs_of_nonneg (by norm_num)
  have hquot : (probe_set maxamp s).low / (probe_set maxamp s).high
      = (10 : ℝ) ^ ((3 : ℝ) / 20) := by
    rw [probe_set_low _ _ hs, probe_set_high _ _ hs,
      reverse_db_div _ _ _ (ne_of_gt hm)]
    congr 1
    ring
  refine ⟨?_, hquot, ?_, ?_, ?_, ?_⟩
  · rw [probe_set_low _ _ hs, probe_set_high _ _ hs]
    exact reverse_db_lt maxamp _ _ hm (by linarith)
  · rw [probe_set_low _ _ hten, habs]
    unfold reverse_db
    norm_num
  · rw [probe_set_high _ _ hten, habs]
    unfold reverse_db
    norm_num
  · show usb_reverse_db 32768 ((-10 : ℝ) - 3) < usb_reverse_db 32768 (-10)
    rw [usb_reverse_db_eq, usb_reverse_db_eq, habs, habs13]
    exact reverse_db_lt 32768 _ _ (by norm_num) (by norm_num)
  · show usb_reverse_db 32768 (-10) / usb_reverse_db 32768 ((-10 : ℝ) - 3)
        = (10 : ℝ) ^ ((3 : ℝ) / 20)
    rw [usb_reverse_db_eq, usb_reverse_db_eq, habs, habs13,
      reverse_db_div _ _ _ (by norm_num)]
    norm_num

/-- A closed instance of the amended threshold theorem at the claim's
numeric scenario: full scale 32768 and sensitivity -10 dB. -/
theorem C1_thresholds_witness :
    (probe_set 32768 (-10)).high < (probe_set 32768 (-10)).low
    ∧ (probe_set 32768 (-10)).low / (probe_set 32768 (-10)).high
        = (10 : ℝ) ^ ((3 : ℝ) / 20)
    ∧ (probe_set 32768 (-10)).low = 32768 * (10 : ℝ) ^ ((-10 : ℝ) / 20)
    ∧ (probe_set 32768 (-10)).high = 32768 * (10 : ℝ) ^ ((-13 : ℝ) / 20)
    ∧ (usb_thresholds 32768 (-10)).2 < (usb_thresholds 32768 (-10)).1
    ∧ (usb_thresholds 32768 (-10)).1 / (usb_thresholds 32768 (-10)).2
        = (10 : ℝ) ^ ((3 : ℝ) / 20) :=
  C1_thresholds 32768 (-10) (by norm_num) (by norm_num)

/-- Outside the four three-byte table entries, the padding lookup falls
back to the identity. -/
theorem padding_id (signed : Bool) (size : Nat) (endian : Option String)
    (x : List Nat) (h : size ≠ 3) : padding signed size endian x = some x := by
  unfold padding
  simp [h]

/-- On a full field the padding always succeeds and returns the unpacked
item width of bytes. -/
theorem padding_full (signed : Bool) (size : Nat) (endian : Option String)
    (x : List Nat)
    (hsz : size = 1 ∨ size = 2 ∨ size = 3 ∨ size = 4)
    (he : endian = some "LE" ∨ endian = some "BE")
    (hx : x.length = size) :
    ∃ y, padding signed size endian x = some y ∧ y.length = itemSize size := by
  by_cases h3 : size = 3
  · subst h3
    have h2 : 2 < x.length := by omega
    cases signed with
    | false =>
      rcases he with he | he <;> subst he
      · exact ⟨x ++ [0], by simp [padding], by simp [itemSize, hx]⟩
      · exact ⟨255 :: x, by simp [padding], by simp [itemSize, hx]⟩
    | true =>
      rcases he with he | he <;> subst he
      · refine ⟨x ++ [if x.get ⟨2, h2⟩ < 128 then 0 else 255], ?_, ?_⟩
        · simp [padding, h2]
        · simp [itemSize, hx]
      · refine ⟨(if x.get ⟨2, h2⟩ < 128 then 0 else 255) :: x, ?_, ?_⟩
        · simp [padding, h2]
        · simp [itemSize, hx]
  · refine ⟨x, padding_id signed size endian x h3, ?_⟩
    simp [itemSize, h3, hx]

/-- When the buffer still holds a whole frame, the channel loop succeeds,
consumes exactly channels times size bytes and assembles channels padded
items. -/
theorem buildChunk_full (signed : Bool) (size : Nat) (endian : Option String)
    (hsz : size = 1 ∨ size = 2 ∨ size = 3 ∨ size = 4)
    (he : endian = some "LE" ∨ endian = some "BE") :
    ∀ (c : Nat) (buf : List Nat), c * size ≤ buf.length →
      ∃ chunk, buildChunk signed size endian c buf
          = some (chunk, buf.drop (c * size))
        ∧ chunk.length = c * itemSize size := by
  intro c
  induction c with
  | zero =>
    intro buf _
    exact ⟨[], by simp [buildChunk], by simp⟩
  | succ n ih =>
    intro buf hlen
    rw [add_one_mul] at hlen
    have hsz_le : size ≤ buf.length :=
      le_trans (Nat.le_add_left _ _) hlen
    have htake : (buf.take size).length = size := by
      rw [List.length_take]
      omega
    obtain ⟨y, hy, hylen⟩ := padding_full signed size endian _ hsz he htake
    have hdrop : n * size ≤ (buf.drop size).length := by
      rw [List.length_drop]
      omega
    obtain ⟨chunk, hbc, hclen⟩ := ih (buf.drop size) hdrop
    have hdd : (buf.drop size).drop (n * size) = buf.drop ((n + 1) * size) := by
      rw [List.drop_drop, add_one_mul]
      ring_nf
    refine ⟨y ++ chunk, ?_, ?_⟩
    · rw [← hdd]
      simp [buildChunk, hy, hbc]
    · rw [List.length_append, hylen, hclen, add_one_mul]
      ring

/-- For the sizes with identity padding (1, 2 and 4 bytes) the channel
loop always succeeds and the chunk holds exactly the consumed bytes. -/
theorem bc_id_len (signed : Bool) (size : Nat) (endian : Option String)
    (h3 : size ≠ 3) :
    ∀ (c : Nat) (buf : List Nat),
      ∃ chunk rest, buildChunk signed size endian c buf = some (chunk, rest)
        ∧ chunk.length = min (c * size) buf.length := by
  intro c
  induction c with
  | zero =>
    intro buf
    exact ⟨[], buf, by simp [buildChunk], by simp⟩
  | succ n ih =>
    intro buf
    obtain ⟨chunk, rest, hbc, hclen⟩ := ih (buf.drop size)
    rw [List.length_drop] at hclen
    refine ⟨buf.take size ++ chunk, rest, ?_, ?_⟩
    · simp [buildChunk, padding_id signed size endian _ h3, hbc]
    · rw [List.length_append, List.length_take, hclen, add_one_mul]
      generalize n * size = A
      omega

/-- For the unsigned three-byte formats the channel loop always succeeds:
each field contributes its consumed bytes plus one pad byte. -/
theorem bc_u3_len (signed : Bool) (size : Nat) (endian : Option String)
    (hs : signed = false) (h3 : size = 3)
    (he : endian = some "LE" ∨ endian = some "BE") :
    ∀ (c : Nat) (buf : List Nat),
      ∃ chunk rest, buildChunk signed size endian c buf = some (chunk, rest)
        ∧ chunk.length = min (c * 3) buf.length + c := by
  subst hs h3
  intro c
  induction c with
  | zero =>
    intro buf
    exact ⟨[], buf, by simp [buildChunk], by simp⟩
  | succ n ih =>
    intro buf
    obtain ⟨chunk, rest, hbc, hclen⟩ := ih (buf.drop 3)
    rw [List.length_drop] at hclen
    rcases he with he | he <;> subst he
    · refine ⟨(buf.take 3 ++ [0]) ++ chunk, rest, ?_, ?_⟩
      · simp [buildChunk, padding, hbc]
      · rw [List.length_append, List.length_append, List.length_take, hclen,
          add_one_mul]
        generalize n * 3 = A
        simp only [List.length_singleton]
        omega
    · refine ⟨(255 :: buf.take 3) ++ chunk, rest, ?_, ?_⟩
      · simp [buildChunk, padding, hbc]
      · rw [List.length_append, List.length_cons, List.length_take, hclen,
          add_one_mul]
        generalize n * 3 = A
        omega

/-- For the signed three-byte formats a buffer shorter than one field
makes the first padding lambda index past the end: IndexError, so the
channel loop fails. -/
theorem bc_s3_none (signed : Bool) (size : Nat) (endian : Option String)
    (hs : signed = true) (h3 : size = 3)
    (he : endian = some "LE" ∨ endian = some "BE")
    (c : Nat) (hc : 1 ≤ c) (buf : List Nat) (hbuf : buf.length < 3) :
    buildChunk signed size endian c buf = none := by
  subst hs h3
  cases c with
  | zero => omega
  | succ n =>
    have hlen : ¬ 2 < buf.length := by omega
    have hlen3 : ¬ 2 < (buf.take 3).length := by
      rw [List.length_take]
      omega
    rcases he with he | he <;> subst he <;> simp [buildChunk, padding, hlen, hlen3]

/-- Every valid (signed, size) pair has a struct code, whose calcsize is
the unpacked item width. -/
theorem struct_code (signed : Bool) (size : Nat)
    (hsz : size = 1 ∨ size = 2 ∨ size = 3 ∨ size = 4) :
    ∃ code, struct_t signed size = some code ∧ fmtSize code = itemSize size := by
  rcases hsz with h | h | h | h <;> subst h <;> cases signed <;> exact ⟨_, rfl, rfl⟩

/-- When a whole frame of bytes remains, __next__ produces a frame and
advances by channels times size bytes. -/
theorem next_full (cfg : StreamMeta)
    (hsz : cfg.size = 1 ∨ cfg.size = 2 ∨ cfg.size = 3 ∨ cfg.size = 4)
    (he : cfg.endian = some "LE" ∨ cfg.endian = some "BE")
    (buf : List Nat) (hlen : cfg.channels * cfg.size ≤ buf.length) :
    ∃ frame, MemScope.next cfg buf
      = some (frame, buf.drop (cfg.channels * cfg.size)) := by
  obtain ⟨code, hcode, hcs⟩ := struct_code cfg.signed cfg.size hsz
  obtain ⟨chunk, hbc, hclen⟩ :=
    buildChunk_full cfg.signed cfg.size cfg.endian hsz he cfg.channels buf hlen
  refine ⟨unpackItems cfg.endian code cfg.channels chunk, ?_⟩
  simp [MemScope.next, hcode, hbc, structUnpack, hclen, hcs]

/-- When fewer bytes than one sample remain, __next__ ends the iteration:
either the padding lambda raises IndexError or struct.unpack rejects the
short chunk. -/
theorem next_short (cfg : StreamMeta)
    (hsz : cfg.size = 1 ∨ cfg.size = 2 ∨ cfg.size = 3 ∨ cfg.size = 4)
    (he : cfg.endian = some "LE" ∨ cfg.endian = some "BE")
    (hch : 1 ≤ cfg.channels)
    (buf : List Nat) (hlen : buf.length < cfg.size) :
    MemScope.next cfg buf = none := by
  obtain ⟨code, hcode, hcs⟩ := struct_code cfg.signed cfg.size hsz
  by_cases h3 : cfg.size = 3
  · cases hsigned : cfg.signed with
    | true =>
      have hbc := bc_s3_none cfg.signed cfg.size cfg.endian hsigned h3 he
        cfg.channels hch buf (by omega)
      simp [MemScope.next, hcode, hbc]
    | false =>
      obtain ⟨chunk, rest, hbc, hclen⟩ :=
        bc_u3_len cfg.signed cfg.size cfg.endian hsigned h3 he cfg.channels buf
      have hcode4 : fmtSize code = 4 := by
        rw [hcs, h3]
        rfl
      have hne : chunk.length ≠ cfg.channels * fmtSize code := by
        rw [hclen, hcode4]
        have h33 : min (cfg.channels * 3) buf.length = buf.length := by
          have : 3 ≤ cfg.channels * 3 := by omega
          omega
        rw [h33]
        have h3le : 3 ≤ cfg.channels * 3 := by omega
        have h4 : cfg.channels * 4 = cfg.channels * 3 + cfg.channels := by ring
        rw [h4]
        generalize cfg.channels * 3 = A at h3le ⊢
        omega
      simp [MemScope.next, hcode, hbc, structUnpack, hne]
  · obtain ⟨chunk, rest, hbc, hclen⟩ :=
      bc_id_len cfg.signed cfg.size cfg.endian h3 cfg.channels buf
    have hne : chunk.length ≠ cfg.channels * fmtSize code := by
      rw [hclen, hcs]
      have hit : itemSize cfg.size = cfg.size := by
        simp [itemSize, h3]
      rw [hit]
      have hle : cfg.size ≤ cfg.channels * cfg.size := by
        have := Nat.mul_le_mul_right cfg.size hch
        omega
      generalize cfg.channels * cfg.size = A at hle ⊢
      omega
    simp [MemScope.next, hcode, hbc, structUnpack, hne]

/-- The fuel-indexed iterator yields exactly k frames on a buffer of k
whole frames plus fewer than one sample of trailing bytes, for any fuel
beyond the buffer length. -/
theorem decodeAux_spec (cfg : StreamMeta)
    (hsz : cfg.size = 1 ∨ cfg.size = 2 ∨ cfg.size = 3 ∨ cfg.size = 4)
    (he : cfg.endian = some "LE" ∨ cfg.endian = some "BE")
    (hch : 1 ≤ cfg.channels) :
    ∀ (fuel k r : Nat) (buf : List Nat), r < cfg.size →
      buf.length = k * (cfg.channels * cfg.size) + r →
      buf.length < fuel →
      (decodeAux cfg fuel buf).length = k := by
  intro fuel
  induction fuel with
  | zero =>
    intro k r buf _ _ hf
    omega
  | succ n ih =>
    intro k r buf hr hb hf
    have hs1 : 1 ≤ cfg.size := by rcases hsz with h | h | h | h <;> omega
    cases k with
    | zero =>
      have hshort : buf.length < cfg.size := by
        rw [hb]
        simpa using hr
      simp [decodeAux, next_short cfg hsz he hch buf hshort]
    | succ m =>
      have hge : cfg.channels * cfg.size ≤ buf.length := by
        rw [hb, add_one_mul]
        exact le_trans (Nat.le_add_left _ _) (Nat.le_add_right _ _)
      obtain ⟨frame, hnext⟩ := next_full cfg hsz he buf hge
      have hdl : (buf.drop (cfg.channels * cfg.size)).length
          = m * (cfg.channels * cfg.size) + r := by
        rw [List.length_drop, hb, add_one_mul]
        generalize m * (cfg.channels * cfg.size) = A
        generalize cfg.channels * cfg.size = B
        omega
      have hX1 : 1 ≤ cfg.channels * cfg.size := Nat.mul_le_mul hch hs1
      have hdf : (buf.drop (cfg.channels * cfg.size)).length < n := by
        rw [List.length_drop]
        generalize cfg.channels * cfg.size = B at hX1 hge
        omega
      have hrec := ih m r (buf.drop (cfg.channels * cfg.size)) hr hdl hdf
      simp [decodeAux, hnext, hrec]

/-- Claim C6: for every valid (signed, size) pair and both endiannesses,
decoding a buffer of k whole frames yields exactly k frames, and a buffer
with up to size - 1 trailing extra bytes still yields exactly k frames;
the iteration ends silently when fewer bytes than a complete frame across
all channels remain. -/
theorem C6_frame_count (cfg : StreamMeta) (k r : Nat) (data : List Nat)
    (hsz : cfg.size = 1 ∨ cfg.size = 2 ∨ cfg.size = 3 ∨ cfg.size = 4)
    (he : cfg.endian = some "LE" ∨ cfg.endian = some "BE")
    (hch : 1 ≤ cfg.channels)
    (hr : r < cfg.size)
    (hd : data.length = k * (cfg.channels * cfg.size) + r) :
    (MemScope.decode cfg data).length = k :=
  decodeAux_spec cfg hsz he hch (data.length + 1) k r data hr hd
    (Nat.lt_succ_self _)

/-- A closed instance of the frame-count theorem: two whole 16-bit stereo
frames plus one trailing byte decode to exactly two frames. -/
theorem C6_frame_count_witness :
    (MemScope.decode cfgS16 [1, 2, 3, 4, 5, 6, 7, 8, 9]).length = 2 :=
  C6_frame_count cfgS16 2 1 [1, 2, 3, 4, 5, 6, 7, 8, 9]
    (Or.inr (Or.inl rfl)) (Or.inl rfl) (by decide) (by decide) (by decide)

/-- Once the state is KILLED, no event changes the machine. -/
theorem step_killed (m : LoopSM) (e : LoopEvent)
    (h : m.state = PlayerState.KILLED) : step m e = m := by
  simp [step, h]

/-- A closed instance of step_killed, applied at the trace state reached
after a shutdown. -/
theorem step_killed_witness :
    step (runEvents (c2ToPlay ++ [.cmd .STOP, .shutdown])) LoopEvent.wakeTimer
      = runEvents (c2ToPlay ++ [.cmd .STOP, .shutdown]) :=
  step_killed (runEvents (c2ToPlay ++ [.cmd .STOP, .shutdown]))
    LoopEvent.wakeTimer (by decide)

/-- Claim C2: the controller starts in UNKNOWN; the first PLAY command
moves it to IDLE; with start_count 3, exactly three consecutive
above-high idle probes move it to PLAY (two do not); with stop_count 5,
exactly five consecutive below-low monitor cycles return it to IDLE
(four do not); a STOP command moves it to HYBERNATE and the hibernate
wake-up then makes it IDLE; a SHUTDOWN signal from any state yields
KILLED, after which no event changes the machine. -/
theorem C2_state_machine_run :
    initSM.state = PlayerState.UNKNOWN
    ∧ (runEvents [.cmd .PLAY]).state = PlayerState.IDLE
    ∧ (runEvents [.cmd .PLAY, .idleCycle true, .idleCycle true]).state
        = PlayerState.IDLE
    ∧ (runEvents c2ToPlay).state = PlayerState.PLAY
    ∧ (runEvents (c2ToPlay ++ List.replicate 4 (LoopEvent.monitorCycle true))).state
        = PlayerState.PLAY
    ∧ (runEvents (c2ToPlay ++ List.replicate 5 (LoopEvent.monitorCycle true))).state
        = PlayerState.IDLE
    ∧ (runEvents (c2ToPlay ++ [.cmd .STOP])).state = PlayerState.HYBERNATE
    ∧ (runEvents (c2ToPlay ++ [.cmd .STOP, .wakeTimer])).state = PlayerState.IDLE
    ∧ (runEvents (c2ToPlay ++ [.cmd .STOP, .shutdown])).state = PlayerState.KILLED
    ∧ (∀ m : LoopSM, (step m .shutdown).state = PlayerState.KILLED)
    ∧ (∀ e : LoopEvent, step (runEvents (c2ToPlay ++ [.cmd .STOP, .shutdown])) e
        = runEvents (c2ToPlay ++ [.cmd .STOP, .shutdown])) := by
  refine ⟨by decide, by decide, by decide, by decide, by decide, by decide,
    by decide, by decide, by decide, ?_, ?_⟩
  · intro m
    by_cases h : m.state = PlayerState.KILLED
    · simp [step, h]
    · simp [step, h]
  · intro e
    exact step_killed _ e (by decide)

/-- Claim C3: evaluated at the failing scenario.  A STOP command schedules
the hibernate wake-up five ticks ahead; a PLAY command dispatched before
that timer fires cancels and completes every running task (running is
empty), but the generation-1 call_later callback is still outstanding at
dispatch time; when the clock reaches its due time it fires and creates a
generation-1 task next to the generation-2 one, so two handler chains of
different generations run at once. -/
theorem C3_stale_timer_survives_dispatch :
    c3AfterPlay.running = []
    ∧ c3AfterPlay.gen = 2
    ∧ c3AfterPlay.timers = [{ gen := 1, due := 5 }, { gen := 2, due := 0 }]
    ∧ (c3AfterPlay.timers.filter
        (fun tm => decide (tm.gen < c3AfterPlay.gen))).length = 1
    ∧ c3Fired.running = [{ gen := 1 }, { gen := 2 }] := by
  refine ⟨rfl, rfl, rfl, rfl, rfl⟩

/-- Claim C4: evaluated at the failing input.  For a format string the
regex does not match, AlsaDeviceConfig.__init__ warns and assigns the
default size, signedness and endianness, but then raises
UnboundLocalError at the maxamp line because bits was never bound;
StreamMeta.__init__ of the usbloop variant raises AttributeError on
res.groups().  Neither constructor returns the default descriptor. -/
theorem C4_fallback_raises :
    fmtMatch "bogus" = none
    ∧ AlsaDeviceConfig.init "bogus" 2 48000 1024
        = .error (PyError.unboundLocal "bits")
    ∧ StreamMeta.init "bogus" 2 48000 1024
        = .error (PyError.attributeError "groups") :=
  ⟨by decide, rfl, rfl⟩

/-- Claim C5: evaluated at the failing inputs.  The signed little-endian
entries extend with byte 255 or 0 according to the top bit of the third
byte, as the claim states; but the unsigned big-endian entry prepends
byte 255 (not the zero-extension byte 0), and the signed big-endian entry
derives its sign byte from x[2], the least significant big-endian byte,
so a negative big-endian sample with a small last byte is padded with 0. -/
theorem C5_padding_table :
    padding true 3 (some "LE") [1, 2, 128] = some [1, 2, 128, 255]
    ∧ padding true 3 (some "LE") [1, 2, 127] = some [1, 2, 127, 0]
    ∧ padding false 3 (some "LE") [255, 255, 255] = some [255, 255, 255, 0]
    ∧ padding false 3 (some "BE") [0, 0, 1] = some [255, 0, 0, 1]
    ∧ padding true 3 (some "BE") [128, 0, 0] = some [0, 128, 0, 0] :=
  ⟨by decide, by decide, by decide, by decide, by decide⟩

/-- Claim C7, counterexample: the string PCM_FORMAT_S24_3LE does not
match the pattern (after the digits 24 the remainder _3LE is not an
accepted suffix, and no other sign-letter position admits a match), so
descriptor construction takes the non-matching path, which raises. -/
theorem C7_counterexample :
    fmtMatch "PCM_FORMAT_S24_3LE" = none
    ∧ AlsaDeviceConfig.init "PCM_FORMAT_S24_3LE" 2 48000 1024
        = .error (PyError.unboundLocal "bits") :=
  ⟨by decide, rfl⟩

/-- Claim C7 as amended: PCM_FORMAT_S24_3LE does not match, but the
24-bit format string PCM_FORMAT_S24_LE matches with digits 24, giving
sample size 3 (24 divided by 8), signed, little-endian, with no fallback
and no error. -/
theorem C7_s24_parses :
    fmtMatch "PCM_FORMAT_S24_LE" = some ('S', "24", some "LE")
    ∧ StreamMeta.init "PCM_FORMAT_S24_LE" 2 48000 1024
        = .ok { format := "PCM_FORMAT_S24_LE", size := 3, signed := true,
                endian := some "LE", channels := 2, rate := 48000,
                frame_size := 6, period_size := 1024, maxamp := 8388608,
                reference := 0 } :=
  ⟨by decide, rfl⟩

/-- Claim C8: whenever the body of _stream raises an ALSAAudioError — an
open failure or a hardware fault during streaming — the handler catches
it at its boundary, appends a self-issued STOP command to the command
queue, and lets nothing propagate. -/
theorem C8_stream_error_to_stop (openResult : Option ALSAAudioError)
    (writeResults : List (Option ALSAAudioError)) (rxq : List PlayerCommand)
    (e : ALSAAudioError)
    (h : runStreamBody openResult writeResults = .error e) :
    stream_handler openResult writeResults rxq
      = (rxq ++ [PlayerCommand.STOP], none) := by
  simp [stream_handler, h]

/-- A closed instance of the stream error theorem: an open failure with an
empty queue yields exactly a STOP command and no propagated exception. -/
theorem C8_stream_error_to_stop_witness :
    stream_handler (some { msg := "device busy" }) [] []
      = ([PlayerCommand.STOP], none) :=
  C8_stream_error_to_stop (some { msg := "device busy" }) [] []
    { msg := "device busy" } rfl

/-- Claim C9: evaluated at the failing input.  For the unsigned 8-bit
format the struct code is c, so the decoded element is the one-byte bytes
object, not an integer (the probe arithmetic on it would raise
TypeError); the signed 8-bit format decodes to an integer as the claim
expects. -/
theorem C9_unsigned8_not_int :
    struct_t false 1 = some 'c'
    ∧ MemScope.decode cfgU8 [5] = [[PyVal.bytes [5]]]
    ∧ (PyVal.bytes [5]).isInt = false
    ∧ MemScope.decode cfgS8 [5] = [[PyVal.int 5]] :=
  ⟨by decide, by decide, by decide, by decide⟩

/-- Claim C10: in the usbloop variant __exit__ returns True, so every
exception raised inside a with-device block — including the errors raised
during playback writes in FSM.stream — is suppressed at the end of the
block: the with statement completes normally, nothing propagates, and no
command is issued. -/
theorem C10_exit_suppresses (e : PyExc) :
    withAlsaDevice (.error e) = .ok ()
    ∧ usb_stream (.error e) = (.ok (), []) :=
  ⟨rfl, rfl⟩

end Usbloop
